import Mathlib

/-
Verification of the rule-based threat scoring backend of
`coastal-threat-alert` (Python, directory `backend/`).

Shallow embedding conventions:
* Python floats are modelled as rationals (`ℚ`).  The special float `nan`
  and the value `None` are modelled by dedicated constructors of `Value`,
  because the classifier branches on `value is None` and every Python
  comparison involving `nan` is `False`.
* `backend/threat_model.py` (the module imported by `backend/app.py`) is
  embedded in namespace `threat_model`; the variant shipped in
  `backend/tests/test_threat_model.py` (which adds the special handling of
  `barometric_pressure`) is embedded in namespace `test_threat_model`.
* Dictionaries with a fixed key set are embedded as structures whose fields
  are the dict keys, together with `get` functions mirroring the Python
  lookups.  The dict literal returned by `calculate_threat_score` is
  additionally serialised by `resultDict` so that statements about its key
  set can be made.
-/

namespace Coastal

/-- A Python sensor value as seen by `calculate_parameter_score`:
`None`, the float `nan`, or an ordinary (finite) float modelled as `ℚ`. -/
inductive Value where
  | none
  | nan
  | num (q : ℚ)
deriving DecidableEq, Repr

/-- Python `value < t` for a `Value` against a threshold: `nan < t` is
`False` for every `t` (IEEE comparison); the `None` case never reaches a
comparison in the source (it is returned early) so its value is irrelevant,
and we let it be `false`. -/
def vlt : Value → ℚ → Bool
  | .none, _ => false
  | .nan, _ => false
  | .num q, t => decide (q < t)

/-- Python `value > t` (used by the tests-file variant for pressure);
`nan > t` is `False` for every `t`. -/
def vgt : Value → ℚ → Bool
  | .none, _ => false
  | .nan, _ => false
  | .num q, t => decide (t < q)

/-- The three-element threshold list `[t1, t2, t3]` of `config.THRESHOLDS`;
the source only ever indexes positions 0, 1, 2. -/
structure Thresholds where
  t1 : ℚ
  t2 : ℚ
  t3 : ℚ
deriving DecidableEq, Repr

end Coastal

namespace threat_model

open Coastal

/-- Source `backend/threat_model.py`, lines 149-158:
`if value is None: return 0` / `if value < thresholds[0]: return 0` /
`elif value < thresholds[1]: return 1` / `elif value < thresholds[2]: return 2`
/ `else: return 3`.  Note: no special treatment of any parameter. -/
def calculate_parameter_score (value : Value) (thresholds : Thresholds) : ℕ :=
  match value with
  | .none => 0
  | v =>
    if vlt v thresholds.t1 then 0
    else if vlt v thresholds.t2 then 1
    else if vlt v thresholds.t3 then 2
    else 3

end threat_model

namespace test_threat_model

open Coastal

/-- Source `backend/tests/test_threat_model.py`, lines 17-58: same as the module
version but takes the parameter name and, for `"barometric_pressure"`,
uses the inverted rule `value > thresholds[i]`. -/
def calculate_parameter_score (param : String) (value : Value)
    (thresholds : Thresholds) : ℕ :=
  match value with
  | .none => 0
  | v =>
    if param == "barometric_pressure" then
      if vgt v thresholds.t1 then 0
      else if vgt v thresholds.t2 then 1
      else if vgt v thresholds.t3 then 2
      else 3
    else
      if vlt v thresholds.t1 then 0
      else if vlt v thresholds.t2 then 1
      else if vlt v thresholds.t3 then 2
      else 3

end test_threat_model

namespace Coastal

/-- Embeds `config.THREAT_LABELS = {0: "Safe", 1: "Caution", 2: "Warning", 3: "Danger"}`;
the scorer only ever looks up the keys 0-3. -/
def THREAT_LABELS : ℕ → String
  | 0 => "Safe"
  | 1 => "Caution"
  | 2 => "Warning"
  | _ => "Danger"

/-- Embeds `config.THRESHOLDS`, in dict insertion order.  `2.5 = 5/2`, `7.5 = 15/2`.
Note the pressure thresholds are listed in descending order. -/
def THRESHOLDS : List (String × Thresholds) :=
  [("wind_speed", ⟨12, 22, 35⟩),
   ("maximum_wind_speed", ⟨18, 30, 45⟩),
   ("humidity", ⟨80, 90, 95⟩),
   ("rain_intensity", ⟨5/2, 15/2, 15⟩),
   ("barometric_pressure", ⟨1005, 995, 985⟩)]

/-- A row as consumed by `calculate_threat_score`: `row.get(param)` is looked
up for exactly the five `THRESHOLDS` keys, and a missing field yields `None`. -/
structure Reading where
  wind_speed : Value
  maximum_wind_speed : Value
  humidity : Value
  rain_intensity : Value
  barometric_pressure : Value
deriving DecidableEq, Repr

/-- Python `row.get(param)`: the five known keys, `None` otherwise. -/
def Reading.get (row : Reading) : String → Value
  | "wind_speed" => row.wind_speed
  | "maximum_wind_speed" => row.maximum_wind_speed
  | "humidity" => row.humidity
  | "rain_intensity" => row.rain_intensity
  | "barometric_pressure" => row.barometric_pressure
  | _ => .none

/-- The `config.WEIGHTS` dict: a fixed-key mapping parameter name → weight. -/
structure Weights where
  wind_speed : ℚ
  maximum_wind_speed : ℚ
  humidity : ℚ
  rain_intensity : ℚ
  barometric_pressure : ℚ
deriving DecidableEq, Repr

/-- Python `WEIGHTS[param]` for the five keys present in the dict. -/
def Weights.get (w : Weights) : String → ℚ
  | "wind_speed" => w.wind_speed
  | "maximum_wind_speed" => w.maximum_wind_speed
  | "humidity" => w.humidity
  | "rain_intensity" => w.rain_intensity
  | "barometric_pressure" => w.barometric_pressure
  | _ => 0

/-- Python `sum(WEIGHTS.values())`. -/
def Weights.total (w : Weights) : ℚ :=
  w.wind_speed + w.maximum_wind_speed + w.humidity + w.rain_intensity +
    w.barometric_pressure

/-- The shipped `config.WEIGHTS`: `0.2, 0.3, 0.05, 0.15, 0.3`. -/
def WEIGHTS : Weights := ⟨1/5, 3/10, 1/20, 3/20, 3/10⟩

/-- Banker rounding to an integer, as the Python built-in `round` performs
on exact halves (round half to even); away from halves it is rounding to
the nearest integer. -/
def bround (q : ℚ) : ℤ :=
  if q - ⌊q⌋ = 1/2 then (if ⌊q⌋ % 2 = 0 then ⌊q⌋ else ⌊q⌋ + 1)
  else round q

/-- Python `round(score, 2)`. -/
def round2 (q : ℚ) : ℚ := (bround (q * 100) : ℚ) / 100

/-- The dict returned by `calculate_threat_score`
(`threat_model.py` line 202): keys `score`, `level`, `parameters`. -/
structure ThreatResult where
  score : ℚ
  level : String
  parameters : List (String × ℕ)
deriving DecidableEq, Repr

/-- How a call to `calculate_threat_score` can fail.  `zeroDivision` models
the `ZeroDivisionError` Python raises at `weighted_sum / total_weight` when
`total_weight == 0`.  The constructor `configError` exists only so that the
spec claim of failing with a `ConfigError` can be stated: no error class named
`ConfigError` occurs anywhere in the repository. -/
inductive PyError where
  | zeroDivision
  | configError
deriving DecidableEq, Repr

end Coastal

namespace threat_model

open Coastal

/-- Source `backend/threat_model.py`, lines 161-202, with the module-global
`WEIGHTS` abstracted into the parameter `w` (the module version is
`calculate_threat_score` below, which fixes `w := WEIGHTS`).  The loop over
`THRESHOLDS.items()` accumulating `parameter_scores` and `weighted_sum` is
rendered as two maps over the same list; `score = weighted_sum / total_weight`
raises `ZeroDivisionError` when `total_weight == 0`. -/
def calculate_threat_score_with (w : Weights) (row : Reading) :
    Except PyError ThreatResult :=
  let parameter_scores := THRESHOLDS.map fun pt =>
    (pt.1, calculate_parameter_score (row.get pt.1) pt.2)
  let weighted_sum : ℚ := (THRESHOLDS.map fun pt =>
    ((calculate_parameter_score (row.get pt.1) pt.2 : ℚ) / 3) *
      w.get pt.1 * 100).sum
  let total_weight := w.total
  if total_weight = 0 then .error .zeroDivision
  else
    let score := weighted_sum / total_weight
    let level :=
      if score < 25 then THREAT_LABELS 0
      else if score < 50 then THREAT_LABELS 1
      else if score < 75 then THREAT_LABELS 2
      else THREAT_LABELS 3
    .ok ⟨round2 score, level, parameter_scores⟩

/-- The module-level function, reading the global `config.WEIGHTS`. -/
def calculate_threat_score (row : Reading) : Except PyError ThreatResult :=
  calculate_threat_score_with WEIGHTS row

end threat_model

namespace test_threat_model

open Coastal

/-- Source `backend/tests/test_threat_model.py`, lines 61-103: identical to the
module version except that the classifier takes the parameter name and that
`score = weighted_sum / total_weight if total_weight > 0 else 0` silently
falls back to `0` instead of raising. -/
def calculate_threat_score_with (w : Weights) (row : Reading) : ThreatResult :=
  let parameter_scores := THRESHOLDS.map fun pt =>
    (pt.1, calculate_parameter_score pt.1 (row.get pt.1) pt.2)
  let weighted_sum : ℚ := (THRESHOLDS.map fun pt =>
    ((calculate_parameter_score pt.1 (row.get pt.1) pt.2 : ℚ) / 3) *
      w.get pt.1 * 100).sum
  let total_weight := w.total
  let score := if 0 < total_weight then weighted_sum / total_weight else 0
  let level :=
    if score < 25 then THREAT_LABELS 0
    else if score < 50 then THREAT_LABELS 1
    else if score < 75 then THREAT_LABELS 2
    else THREAT_LABELS 3
  ⟨round2 score, level, parameter_scores⟩

/-- The tests-file function with the global `config.WEIGHTS`. -/
def calculate_threat_score (row : Reading) : ThreatResult :=
  calculate_threat_score_with WEIGHTS row

end test_threat_model

namespace Coastal

/-- A JSON-ish value, used to serialise the returned dicts so that claims
about their key sets can be stated. -/
inductive Val where
  | num (q : ℚ)
  | str (s : String)
  | params (m : List (String × ℕ))
deriving DecidableEq, Repr

/-- The dict literal `{"score": ..., "level": ..., "parameters": ...}`
returned at `threat_model.py` line 202, as an ordered key/value list. -/
def resultDict (res : ThreatResult) : List (String × Val) :=
  [("score", .num res.score), ("level", .str res.level),
   ("parameters", .params res.parameters)]

/-- The key set of the dict `calculate_threat_score` returns for a row
(empty if the call raises). -/
def scoreKeys (row : Reading) : List String :=
  match threat_model.calculate_threat_score row with
  | .ok res => (resultDict res).map Prod.fst
  | .error _ => []

/-- The dict produced by `app._load_latest_reading` (`app.py` lines 198-289):
`station_name`/`timestamp` strings or `None`, and the five sensor fields as
floats or `None` (each numeric field passes a `pd.notna` guard, so `nan`
cannot occur here). -/
structure RawReading where
  station_name : Option String
  timestamp : Option String
  wind_speed : Option ℚ
  maximum_wind_speed : Option ℚ
  humidity : Option ℚ
  rain_intensity : Option ℚ
  barometric_pressure : Option ℚ
deriving DecidableEq, Repr

/-- Python `float(x or 0.0)` on a float-or-`None` input: `None` and `0.0`
are falsy (both yield `0.0`); any other float is returned unchanged. -/
def orZero : Option ℚ → ℚ
  | Option.none => 0
  | some q => if q = 0 then 0 else q

/-- Embeds `app._to_model_row` (`app.py` lines 292-303): build the five-field row
passed to `calculate_threat_score`, each field `float(raw.get(k) or 0.0)`. -/
def to_model_row (raw : RawReading) : Reading :=
  ⟨.num (orZero raw.wind_speed),
   .num (orZero raw.maximum_wind_speed),
   .num (orZero raw.humidity),
   .num (orZero raw.rain_intensity),
   .num (orZero raw.barometric_pressure)⟩

/-- Embeds `app.LatestThreatResponse`: `score`, `level`, `parameters` plus `raw`. -/
structure LatestThreatResponse where
  score : ℚ
  level : String
  parameters : List (String × ℕ)
  raw : RawReading
deriving DecidableEq, Repr

/-- The body of `GET /threat/latest` (`app.py` lines 376-379) after the raw
reading has been loaded: score the zero-filled row and return
`LatestThreatResponse(**result, raw=raw)`. -/
def threat_latest (raw : RawReading) : Except PyError LatestThreatResponse :=
  let row := to_model_row raw
  (threat_model.calculate_threat_score row).map fun res =>
    ⟨res.score, res.level, res.parameters, raw⟩

/-- Embeds `sensor_simulator.CSVSimulatedStream`: holds the loaded dataframe as the
list of its rows (empty when the file was missing). -/
structure CSVSimulatedStream (Row : Type) where
  df : List Row

/-- Embeds `CSVSimulatedStream.stream` (`sensor_simulator.py` lines 73-88): if the
dataframe is empty, return immediately; otherwise yield each row once, in
dataframe order, and stop after the last row (`row.to_dict()` is the
identity at this level of modelling; the inter-row sleep carries no data). -/
def CSVSimulatedStream.stream {Row : Type} (sim : CSVSimulatedStream Row) :
    List Row :=
  if sim.df.isEmpty then [] else sim.df

end Coastal

namespace Coastal

/-- The threat level as a function of the exact (pre-rounding) score, i.e.
the fixed cut points `< 25, < 50, < 75, else` over `THREAT_LABELS`. -/
def levelOf (s : ℚ) : String :=
  if s < 25 then "Safe" else if s < 50 then "Caution"
  else if s < 75 then "Warning" else "Danger"

/-- The per-parameter risk levels of a row under the shipped thresholds,
in `THRESHOLDS` iteration order. -/
def rowRisks (row : Reading) : List (String × ℕ) :=
  [("wind_speed", threat_model.calculate_parameter_score row.wind_speed ⟨12, 22, 35⟩),
   ("maximum_wind_speed", threat_model.calculate_parameter_score row.maximum_wind_speed ⟨18, 30, 45⟩),
   ("humidity", threat_model.calculate_parameter_score row.humidity ⟨80, 90, 95⟩),
   ("rain_intensity", threat_model.calculate_parameter_score row.rain_intensity ⟨5/2, 15/2, 15⟩),
   ("barometric_pressure", threat_model.calculate_parameter_score row.barometric_pressure ⟨1005, 995, 985⟩)]

/-- A weighted combination of the five risk levels of a row; the exact
score under the shipped weights is `5 * rowN row / 3` (`threat_score_eq`). -/
def rowN (row : Reading) : ℕ :=
  4 * threat_model.calculate_parameter_score row.wind_speed ⟨12, 22, 35⟩ +
  6 * threat_model.calculate_parameter_score row.maximum_wind_speed ⟨18, 30, 45⟩ +
  threat_model.calculate_parameter_score row.humidity ⟨80, 90, 95⟩ +
  3 * threat_model.calculate_parameter_score row.rain_intensity ⟨5/2, 15/2, 15⟩ +
  6 * threat_model.calculate_parameter_score row.barometric_pressure ⟨1005, 995, 985⟩

/-- A reading with every sensor field absent (`None`). -/
def emptyReading : Reading := ⟨.none, .none, .none, .none, .none⟩

/-- A reading whose fields are all the float `nan`. -/
def nanReading : Reading := ⟨.nan, .nan, .nan, .nan, .nan⟩

/-- The payload of the repository test `test_threat_score_endpoint`
(`tests/test_app.py`): wind 18, max wind 22, humidity 80, rain 3,
pressure 995. -/
def testPayload : Reading := ⟨.num 18, .num 22, .num 80, .num 3, .num 995⟩

/-- A configuration whose weights sum to zero. -/
def zeroWeights : Weights := ⟨0, 0, 0, 0, 0⟩

lemma param_le_three (v : Value) (t : Thresholds) :
    threat_model.calculate_parameter_score v t ≤ 3 := by
  cases v <;> simp only [threat_model.calculate_parameter_score] <;>
    (try split_ifs) <;> omega

lemma get_ws (row : Reading) : row.get "wind_speed" = row.wind_speed := rfl
lemma get_mws (row : Reading) : row.get "maximum_wind_speed" = row.maximum_wind_speed := rfl
lemma get_hum (row : Reading) : row.get "humidity" = row.humidity := rfl
lemma get_ri (row : Reading) : row.get "rain_intensity" = row.rain_intensity := rfl
lemma get_bp (row : Reading) : row.get "barometric_pressure" = row.barometric_pressure := rfl

lemma wget_ws (w : Weights) : w.get "wind_speed" = w.wind_speed := rfl
lemma wget_mws (w : Weights) : w.get "maximum_wind_speed" = w.maximum_wind_speed := rfl
lemma wget_hum (w : Weights) : w.get "humidity" = w.humidity := rfl
lemma wget_ri (w : Weights) : w.get "rain_intensity" = w.rain_intensity := rfl
lemma wget_bp (w : Weights) : w.get "barometric_pressure" = w.barometric_pressure := rfl

lemma rowN_le (row : Reading) : rowN row ≤ 60 := by
  have ha := param_le_three row.wind_speed ⟨12, 22, 35⟩
  have hb := param_le_three row.maximum_wind_speed ⟨18, 30, 45⟩
  have hc := param_le_three row.humidity ⟨80, 90, 95⟩
  have hd := param_le_three row.rain_intensity ⟨5/2, 15/2, 15⟩
  have he := param_le_three row.barometric_pressure ⟨1005, 995, 985⟩
  unfold rowN
  omega

/-- Technical reshaping step for `threat_score_eq`, with the five risk
levels abstracted as naturals. -/
lemma score_shape (a b c d e : ℕ) :
    (Except.ok (⟨round2 (((a : ℚ) / 3 * (1/5) * 100 +
        ((b : ℚ) / 3 * (3/10) * 100 +
          ((c : ℚ) / 3 * (1/20) * 100 +
            ((d : ℚ) / 3 * (3/20) * 100 +
              ((e : ℚ) / 3 * (3/10) * 100 + 0))))) /
        (1/5 + 3/10 + 1/20 + 3/20 + 3/10)),
      (if ((a : ℚ) / 3 * (1/5) * 100 +
        ((b : ℚ) / 3 * (3/10) * 100 +
          ((c : ℚ) / 3 * (1/20) * 100 +
            ((d : ℚ) / 3 * (3/20) * 100 +
              ((e : ℚ) / 3 * (3/10) * 100 + 0))))) /
        (1/5 + 3/10 + 1/20 + 3/20 + 3/10) < 25 then THREAT_LABELS 0
       else if ((a : ℚ) / 3 * (1/5) * 100 +
        ((b : ℚ) / 3 * (3/10) * 100 +
          ((c : ℚ) / 3 * (1/20) * 100 +
            ((d : ℚ) / 3 * (3/20) * 100 +
              ((e : ℚ) / 3 * (3/10) * 100 + 0))))) /
        (1/5 + 3/10 + 1/20 + 3/20 + 3/10) < 50 then THREAT_LABELS 1
       else if ((a : ℚ) / 3 * (1/5) * 100 +
        ((b : ℚ) / 3 * (3/10) * 100 +
          ((c : ℚ) / 3 * (1/20) * 100 +
            ((d : ℚ) / 3 * (3/20) * 100 +
              ((e : ℚ) / 3 * (3/10) * 100 + 0))))) /
        (1/5 + 3/10 + 1/20 + 3/20 + 3/10) < 75 then THREAT_LABELS 2
       else THREAT_LABELS 3),
      [("wind_speed", a), ("maximum_wind_speed", b), ("humidity", c),
       ("rain_intensity", d), ("barometric_pressure", e)]⟩ : ThreatResult) :
        Except PyError ThreatResult) =
    .ok ⟨round2 ((5 * ((4 * a + 6 * b + c + 3 * d + 6 * e : ℕ) : ℚ)) / 3),
      levelOf ((5 * ((4 * a + 6 * b + c + 3 * d + 6 * e : ℕ) : ℚ)) / 3),
      [("wind_speed", a), ("maximum_wind_speed", b), ("humidity", c),
       ("rain_intensity", d), ("barometric_pressure", e)]⟩ := by
  have hE : ((a : ℚ) / 3 * (1/5) * 100 +
      ((b : ℚ) / 3 * (3/10) * 100 +
        ((c : ℚ) / 3 * (1/20) * 100 +
          ((d : ℚ) / 3 * (3/20) * 100 +
            ((e : ℚ) / 3 * (3/10) * 100 + 0))))) /
      (1/5 + 3/10 + 1/20 + 3/20 + 3/10) =
      5 * ((4 * a + 6 * b + c + 3 * d + 6 * e : ℕ) : ℚ) / 3 := by
    push_cast
    ring
  rw [hE]
  simp only [levelOf, THREAT_LABELS]

/-- Characterisation of the shipped scorer: it always succeeds, its exact
score is `5 * rowN row / 3` rounded to two decimals, its level comes from
the cut points on the exact score, and its parameter map is `rowRisks`. -/
theorem threat_score_eq (row : Reading) :
    threat_model.calculate_threat_score row =
      .ok ⟨round2 ((5 * (rowN row : ℚ)) / 3), levelOf ((5 * (rowN row : ℚ)) / 3),
           rowRisks row⟩ := by
  unfold threat_model.calculate_threat_score threat_model.calculate_threat_score_with
  simp only [THRESHOLDS, WEIGHTS, List.map_cons, List.map_nil, List.sum_cons,
    List.sum_nil, get_ws, get_mws, get_hum, get_ri, get_bp,
    wget_ws, wget_mws, wget_hum, wget_ri, wget_bp, Weights.total]
  rw [if_neg (by norm_num)]
  simp only [rowN]
  simp only [rowRisks]
  exact score_shape _ _ _ _ _

/-- On the grid of scores the shipped configuration can produce
(`5 * n / 3` for `n ≤ 60`), rounding to two decimals stays within
`[0, 100]` and never moves a score across a level cut point. -/
lemma round2_grid_key (n : ℕ) (hn : n ≤ 60) :
    0 ≤ round2 ((5 * n : ℚ) / 3) ∧ round2 ((5 * n : ℚ) / 3) ≤ 100 ∧
      levelOf (round2 ((5 * n : ℚ) / 3)) = levelOf ((5 * n : ℚ) / 3) := by
  interval_cases n <;>
    norm_num [levelOf, round2, bround, round_eq]

lemma orZero_eq_getD (o : Option ℚ) : orZero o = o.getD 0 := by
  cases o with
  | none => rfl
  | some q =>
    simp only [orZero, Option.getD_some]
    split_ifs with h
    · exact h.symm
    · rfl

end Coastal

namespace Coastal

lemma v2_eq_v1_for_ws (v : Value) (t : Thresholds) :
    test_threat_model.calculate_parameter_score "wind_speed" v t =
      threat_model.calculate_parameter_score v t := by
  cases v <;> rfl

end Coastal

open Coastal

/-- C1: the module classifier applies the ascending rule to the descending
pressure thresholds, so it is not the inverted rule the spec states: at
1010 hPa (calm high pressure) it returns risk 3 instead of 0, and at
990 hPa (storm) it returns 0 instead of 2; the corrected variant in
`tests/test_threat_model.py` returns 0 and 2 as the spec states. -/
theorem C1_pressure_rule_not_inverted :
    threat_model.calculate_parameter_score (Value.num 1010) ⟨1005, 995, 985⟩ = 3 ∧
    threat_model.calculate_parameter_score (Value.num 990) ⟨1005, 995, 985⟩ = 0 ∧
    test_threat_model.calculate_parameter_score "barometric_pressure"
      (Value.num 1010) ⟨1005, 995, 985⟩ = 0 ∧
    test_threat_model.calculate_parameter_score "barometric_pressure"
      (Value.num 990) ⟨1005, 995, 985⟩ = 2 := by
  refine ⟨?_, ?_, ?_, ?_⟩ <;>
    norm_num [threat_model.calculate_parameter_score,
      test_threat_model.calculate_parameter_score, vlt, vgt]

/-- C2 counterexample: a value exactly equal to the first threshold is
classified as risk 1, not risk 0 as the claim states, in both classifier
versions (`wind_speed == 12` against `[12, 22, 35]`). -/
theorem C2_boundary_counterexample :
    threat_model.calculate_parameter_score (Value.num 12) ⟨12, 22, 35⟩ = 1 ∧
    test_threat_model.calculate_parameter_score "wind_speed"
      (Value.num 12) ⟨12, 22, 35⟩ = 1 := by
  refine ⟨?_, ?_⟩ <;> (try rw [v2_eq_v1_for_ws]) <;>
    norm_num [threat_model.calculate_parameter_score, vlt]

/-- C2 (amended): with strictly ascending thresholds, a value exactly equal
to a threshold falls in the HIGHER-risk bucket for the ascending-rule
classification in both versions: `t1 ↦ 1`, `t2 ↦ 2`, `t3 ↦ 3` (the
comparisons are strict `<`). -/
theorem C2_boundary_in_higher_bucket (t : Thresholds)
    (h12 : t.t1 < t.t2) (h23 : t.t2 < t.t3) :
    threat_model.calculate_parameter_score (Value.num t.t1) t = 1 ∧
    threat_model.calculate_parameter_score (Value.num t.t2) t = 2 ∧
    threat_model.calculate_parameter_score (Value.num t.t3) t = 3 ∧
    test_threat_model.calculate_parameter_score "wind_speed" (Value.num t.t1) t = 1 ∧
    test_threat_model.calculate_parameter_score "wind_speed" (Value.num t.t2) t = 2 ∧
    test_threat_model.calculate_parameter_score "wind_speed" (Value.num t.t3) t = 3 := by
  refine ⟨?_, ?_, ?_, ?_, ?_, ?_⟩ <;> (try rw [v2_eq_v1_for_ws]) <;>
    simp only [threat_model.calculate_parameter_score, vlt, decide_eq_true_eq] <;>
    split_ifs <;> first | rfl | (exfalso; linarith)

/-- Witness for `C2_boundary_in_higher_bucket` at the wind-speed thresholds
`[12, 22, 35]`. -/
theorem C2_boundary_in_higher_bucket_witness :
    threat_model.calculate_parameter_score (Value.num 12) ⟨12, 22, 35⟩ = 1 ∧
    threat_model.calculate_parameter_score (Value.num 22) ⟨12, 22, 35⟩ = 2 ∧
    threat_model.calculate_parameter_score (Value.num 35) ⟨12, 22, 35⟩ = 3 ∧
    test_threat_model.calculate_parameter_score "wind_speed" (Value.num 12) ⟨12, 22, 35⟩ = 1 ∧
    test_threat_model.calculate_parameter_score "wind_speed" (Value.num 22) ⟨12, 22, 35⟩ = 2 ∧
    test_threat_model.calculate_parameter_score "wind_speed" (Value.num 35) ⟨12, 22, 35⟩ = 3 :=
  C2_boundary_in_higher_bucket ⟨12, 22, 35⟩ (by norm_num) (by norm_num)

/-- C3 counterexample: a `nan` value falls through every `<` comparison and
is classified as risk 3, not 0; a reading whose fields are all `nan`
scores 100 / Danger, not 0 / Safe. -/
theorem C3_nan_counterexample :
    threat_model.calculate_parameter_score Value.nan ⟨12, 22, 35⟩ = 3 ∧
    threat_model.calculate_threat_score nanReading =
      Except.ok ⟨100, "Danger",
        [("wind_speed", 3), ("maximum_wind_speed", 3), ("humidity", 3),
         ("rain_intensity", 3), ("barometric_pressure", 3)]⟩ := by
  refine ⟨by norm_num [threat_model.calculate_parameter_score, vlt], ?_⟩
  norm_num [threat_model.calculate_threat_score,
    threat_model.calculate_threat_score_with, THRESHOLDS, WEIGHTS, Weights.get,
    Weights.total, Reading.get, threat_model.calculate_parameter_score, vlt,
    nanReading, round2, bround, round_eq, THREAT_LABELS]

/-- C3 (amended): an absent (`None`) value is classified as risk 0 in both
versions, and a reading with every field absent scores 0 with level Safe. -/
theorem C3_absent_defaults_to_safe :
    (∀ t : Thresholds, threat_model.calculate_parameter_score Value.none t = 0) ∧
    (∀ (p : String) (t : Thresholds),
      test_threat_model.calculate_parameter_score p Value.none t = 0) ∧
    threat_model.calculate_threat_score emptyReading =
      Except.ok ⟨0, "Safe",
        [("wind_speed", 0), ("maximum_wind_speed", 0), ("humidity", 0),
         ("rain_intensity", 0), ("barometric_pressure", 0)]⟩ := by
  refine ⟨fun t => rfl, fun p t => rfl, ?_⟩
  norm_num [threat_model.calculate_threat_score,
    threat_model.calculate_threat_score_with, THRESHOLDS, WEIGHTS, Weights.get,
    Weights.total, Reading.get, threat_model.calculate_parameter_score,
    emptyReading, round2, bround, round_eq, THREAT_LABELS]

/-- C7: monotonicity fails for pressure in the module classifier: dropping
the pressure from 1010 to 980 hPa LOWERS the assigned risk from 3 to 0
(the corrected variant in `tests/` assigns 0 and 3 respectively). -/
theorem C7_pressure_monotonicity_violated :
    threat_model.calculate_parameter_score (Value.num 980) ⟨1005, 995, 985⟩ = 0 ∧
    threat_model.calculate_parameter_score (Value.num 1010) ⟨1005, 995, 985⟩ = 3 ∧
    test_threat_model.calculate_parameter_score "barometric_pressure"
      (Value.num 980) ⟨1005, 995, 985⟩ = 3 ∧
    test_threat_model.calculate_parameter_score "barometric_pressure"
      (Value.num 1010) ⟨1005, 995, 985⟩ = 0 := by
  refine ⟨?_, ?_, ?_, ?_⟩ <;>
    norm_num [threat_model.calculate_parameter_score,
      test_threat_model.calculate_parameter_score, vlt, vgt]

/-- C4 counterexample: with an all-zero weight configuration the module
scorer raises `ZeroDivisionError` (not a `ConfigError`, which exists
nowhere in the repository), and the tests-file variant does not fail at
all — it silently falls back to score 0 / Safe. -/
theorem C4_zero_total_not_config_error :
    threat_model.calculate_threat_score_with zeroWeights emptyReading =
      Except.error PyError.zeroDivision ∧
    threat_model.calculate_threat_score_with zeroWeights emptyReading ≠
      Except.error PyError.configError ∧
    (test_threat_model.calculate_threat_score_with zeroWeights emptyReading).score = 0 ∧
    (test_threat_model.calculate_threat_score_with zeroWeights emptyReading).level = "Safe" := by
  have h1 : threat_model.calculate_threat_score_with zeroWeights emptyReading =
      Except.error PyError.zeroDivision := by
    norm_num [threat_model.calculate_threat_score_with, zeroWeights, Weights.total]
  have h2 : test_threat_model.calculate_threat_score_with zeroWeights emptyReading =
      ⟨0, "Safe",
        [("wind_speed", 0), ("maximum_wind_speed", 0), ("humidity", 0),
         ("rain_intensity", 0), ("barometric_pressure", 0)]⟩ := by
    norm_num [test_threat_model.calculate_threat_score_with,
      test_threat_model.calculate_parameter_score, THRESHOLDS, zeroWeights,
      Weights.get, Weights.total, Reading.get, emptyReading, round2, bround,
      round_eq, THREAT_LABELS]
  refine ⟨h1, ?_, by rw [h2], by rw [h2]⟩
  rw [h1]
  intro h
  exact PyError.noConfusion (Except.error.inj h)

/-- C4 (amended): whenever the configured weights sum to a positive total,
scoring never fails; the division-by-zero failure can only occur for a
zero total (and the shipped `WEIGHTS` total is 1). -/
theorem C4_positive_total_never_fails (w : Weights) (row : Reading)
    (h : 0 < w.total) :
    ∃ res, threat_model.calculate_threat_score_with w row = Except.ok res := by
  simp only [threat_model.calculate_threat_score_with]
  rw [if_neg (ne_of_gt h)]
  exact ⟨_, rfl⟩

/-- Witness for `C4_positive_total_never_fails` at the shipped `WEIGHTS`
(total 1) and the all-absent reading. -/
theorem C4_positive_total_never_fails_witness :
    (0 : ℚ) < WEIGHTS.total ∧
    ∃ res, threat_model.calculate_threat_score_with WEIGHTS emptyReading =
      Except.ok res := by
  have h : (0 : ℚ) < WEIGHTS.total := by norm_num [WEIGHTS, Weights.total]
  exact ⟨h, C4_positive_total_never_fails WEIGHTS emptyReading h⟩

/-- C5: at the payload of the repository test `test_threat_score_endpoint`,
`calculate_threat_score` returns a dict whose keys are exactly `score`,
`level`, `parameters` — there is no `raw` key in the scoring result. -/
theorem C5_score_result_lacks_raw_key :
    threat_model.calculate_threat_score testPayload =
      Except.ok ⟨2333/100, "Safe",
        [("wind_speed", 1), ("maximum_wind_speed", 1), ("humidity", 1),
         ("rain_intensity", 1), ("barometric_pressure", 0)]⟩ ∧
    scoreKeys testPayload = ["score", "level", "parameters"] := by
  have h : threat_model.calculate_threat_score testPayload =
      Except.ok ⟨2333/100, "Safe",
        [("wind_speed", 1), ("maximum_wind_speed", 1), ("humidity", 1),
         ("rain_intensity", 1), ("barometric_pressure", 0)]⟩ := by
    norm_num [threat_model.calculate_threat_score,
      threat_model.calculate_threat_score_with, THRESHOLDS, WEIGHTS,
      Weights.get, Weights.total, Reading.get,
      threat_model.calculate_parameter_score, vlt, testPayload, round2, bround,
      round_eq, THREAT_LABELS]
  refine ⟨h, ?_⟩
  rw [scoreKeys, h]
  rfl

/-- C6: for every reading the scorer succeeds with a score in `[0, 100]`
and a level among the four labels, consistent with the fixed cut points
applied to the returned (rounded) score. -/
theorem C6_score_bounds_and_level_consistency (row : Reading) :
    ∃ res, threat_model.calculate_threat_score row = Except.ok res ∧
      0 ≤ res.score ∧ res.score ≤ 100 ∧
      res.level ∈ ["Safe", "Caution", "Warning", "Danger"] ∧
      res.level = (if res.score < 25 then "Safe" else if res.score < 50 then "Caution"
        else if res.score < 75 then "Warning" else "Danger") := by
  obtain ⟨h0, h1, h2⟩ := round2_grid_key (rowN row) (rowN_le row)
  refine ⟨_, threat_score_eq row, h0, h1, ?_, ?_⟩
  · show levelOf ((5 * (rowN row : ℚ)) / 3) ∈ _
    simp only [levelOf]
    split_ifs <;> simp
  · show levelOf ((5 * (rowN row : ℚ)) / 3) = _
    rw [← h2]
    simp only [levelOf]

/-- C8: streaming a loaded dataframe emits exactly its rows, in dataframe
order, and then terminates (the stream is the row list itself). -/
theorem C8_stream_emits_all_rows_in_order {Row : Type}
    (sim : CSVSimulatedStream Row) :
    sim.stream = sim.df ∧ sim.stream.length = sim.df.length := by
  have h1 : sim.stream = sim.df := by
    simp only [CSVSimulatedStream.stream]
    split_ifs with h
    · exact (List.isEmpty_iff.mp h).symm
    · rfl
  exact ⟨h1, by rw [h1]⟩

/-- C9: for every reading the returned `parameters` map has exactly the
five configured keys, in `THRESHOLDS` order, and every value is a risk
level at most 3. -/
theorem C9_parameter_keys_and_range (row : Reading) :
    ∃ res, threat_model.calculate_threat_score row = Except.ok res ∧
      res.parameters.map Prod.fst =
        ["wind_speed", "maximum_wind_speed", "humidity", "rain_intensity",
         "barometric_pressure"] ∧
      (res.parameters.all fun pv => decide (pv.2 ≤ 3)) = true := by
  refine ⟨_, threat_score_eq row, ?_, ?_⟩
  · simp [rowRisks]
  · simp [rowRisks, param_le_three]

/-- C10: on the latest-reading path every absent field is zero-filled
before scoring (so the scoring input always has all five fields present as
numbers and the absent-value rule of the classifier cannot fire), while
the response preserves the raw reading, absent fields included, unmodified. -/
theorem C10_latest_path_zero_fill_and_raw_preserved (raw : RawReading) :
    (to_model_row raw).wind_speed = Value.num (raw.wind_speed.getD 0) ∧
    (to_model_row raw).maximum_wind_speed = Value.num (raw.maximum_wind_speed.getD 0) ∧
    (to_model_row raw).humidity = Value.num (raw.humidity.getD 0) ∧
    (to_model_row raw).rain_intensity = Value.num (raw.rain_intensity.getD 0) ∧
    (to_model_row raw).barometric_pressure = Value.num (raw.barometric_pressure.getD 0) ∧
    (to_model_row raw).wind_speed ≠ Value.none ∧
    (to_model_row raw).maximum_wind_speed ≠ Value.none ∧
    (to_model_row raw).humidity ≠ Value.none ∧
    (to_model_row raw).rain_intensity ≠ Value.none ∧
    (to_model_row raw).barometric_pressure ≠ Value.none ∧
    ∃ resp, threat_latest raw = Except.ok resp ∧ resp.raw = raw := by
  refine ⟨?_, ?_, ?_, ?_, ?_, ?_, ?_, ?_, ?_, ?_, ?_⟩
  · simp [to_model_row, orZero_eq_getD]
  · simp [to_model_row, orZero_eq_getD]
  · simp [to_model_row, orZero_eq_getD]
  · simp [to_model_row, orZero_eq_getD]
  · simp [to_model_row, orZero_eq_getD]
  · simp [to_model_row]
  · simp [to_model_row]
  · simp [to_model_row]
  · simp [to_model_row]
  · simp [to_model_row]
  · simp only [threat_latest]
    rw [threat_score_eq]
    exact ⟨_, rfl, rfl⟩
